import Mathlib

/-!
Verification of the instruction-encoding and transaction-assembly layer of
the bitoku-sdk-agent client scripts.

Bytes are modelled as natural numbers below 256 and buffers as `List Nat`.
The three scripts (`scripts/sendRequest.js`, the delete-client script and
the create-client-account script) build their instruction data by
concatenating fixed-width fields; the shared helper assembles a transaction
from a compute-budget instruction and the operation instruction, stamps the
latest blockhash, signs, sends and confirms it.
-/

set_option autoImplicit false

namespace Bitoku

/-- Models the JavaScript expression `Buffer.from(Int8Array.from([n]).buffer)`
used throughout the scripts for one-byte fields: a single byte holding `n`
reduced modulo 256 (the `Int8Array` stores the low 8 bits; reading the
backing buffer yields them back as one unsigned byte). -/
def int8Bytes (n : Nat) : List Nat := [n % 256]

/-- Models `BN#toArray` of the bn.js library (the external dependency the
scripts use for the position field) with endianness `"le"` and an explicit
byte length: the little-endian base-256 digits of `n`, padded with zero
bytes up to the requested length. bn.js throws when `n` needs more bytes
than requested, so callers stay within `2 ^ (8 * len)`. -/
def bnToArrayLE : Nat → Nat → List Nat
  | _, 0 => []
  | n, len + 1 => n % 256 :: bnToArrayLE (n / 256) len

/-- Reference decoder for an unsigned little-endian byte list, used to state
that `bnToArrayLE` really is the unsigned little-endian encoding. -/
def fromArrayLE : List Nat → Nat
  | [] => 0
  | b :: bs => b + 256 * fromArrayLE bs

/-- Addresses that occur in the scripts' account lists, kept abstract: the
wallet key, the two program-derived addresses, the system program, the rent
sysvar and the storage program id. -/
inductive Address
  | wallet
  | bookkeeper
  | requestAccount
  | systemProgram
  | rentSysvar
  | programId
deriving DecidableEq

/-- One entry of a `TransactionInstruction`'s `keys` array: an address with
its signer and writable flags. -/
structure AccountMeta where
  pubkey : Address
  isSigner : Bool
  isWritable : Bool
deriving DecidableEq

/-- The three operation kinds of the remote program. -/
inductive Opcode
  | createClientAccount
  | deleteClient
  | sendRequest
deriving DecidableEq

/-- Account table transcribed from the words of the specification (§4.2),
one ordered list per opcode, for comparison with the lists the scripts
build. -/
def specAccountTable : Opcode → List AccountMeta
  | .createClientAccount =>
      [⟨.wallet, true, true⟩, ⟨.bookkeeper, false, true⟩,
       ⟨.requestAccount, false, true⟩, ⟨.systemProgram, false, false⟩,
       ⟨.rentSysvar, false, false⟩]
  | .deleteClient =>
      [⟨.wallet, true, true⟩, ⟨.bookkeeper, false, true⟩,
       ⟨.requestAccount, false, true⟩]
  | .sendRequest =>
      [⟨.wallet, true, true⟩, ⟨.requestAccount, false, true⟩]

namespace SendRequest

/-- UTF-8 bytes of the hardcoded name `dir-2/file-1` (line 31 of
scripts/sendRequest.js). -/
def nameBytes : List Nat := [100, 105, 114, 45, 50, 47, 102, 105, 108, 101, 45, 49]

/-- UTF-8 bytes of the hardcoded input `test3` (line 38). -/
def inputBytes : List Nat := [116, 101, 115, 116, 51]

/-- Models lines 32-36: the name buffer followed by `128 - length` zero
bytes. JavaScript `Array.from` clamps a negative length to zero, exactly as
truncated `Nat` subtraction does, so an over-long name receives no padding
at all rather than an error. -/
def namee (name : List Nat) : List Nat :=
  name ++ List.replicate (128 - name.length) 0

/-- Models lines 38-42: the input buffer followed by `512 - length` zero
bytes, with the same clamping behavior as `namee`. -/
def ip (input : List Nat) : List Nat :=
  input ++ List.replicate (512 - input.length) 0

/-- Models the `Buffer.concat` at lines 44-59 that builds the instruction
data, with the script's literal field values as parameters: opcode byte 3,
then clientId, requestType, the padded name, fileId, the 8-byte
little-endian position and the padded input. -/
def dataOf (clientId requestType : Nat) (name : List Nat)
    (fileId position : Nat) (input : List Nat) : List Nat :=
  int8Bytes 3 ++ int8Bytes clientId ++ int8Bytes requestType ++ namee name
    ++ int8Bytes fileId ++ bnToArrayLE position 8 ++ ip input

/-- The concrete `data` value of the script: clientId 0, requestType 1,
name `dir-2/file-1`, fileId 45, position 5, input `test3`. -/
def data : List Nat := dataOf 0 1 nameBytes 45 5 inputBytes

/-- The `keys` array of scripts/sendRequest.js (lines 18-29): the wallet as
signer and writable, then the derived request account as writable. -/
def keys : List AccountMeta :=
  [⟨.wallet, true, true⟩, ⟨.requestAccount, false, true⟩]

/-- Identifiers bound at module scope of scripts/sendRequest.js: the three
names brought in from `@solana/web3.js` (lines 1-5), the four names brought
in from `./helper.js` (line 6), and the hoisted module-level `let`/`const`
declarations of the file. -/
def moduleBindings : List String :=
  ["PublicKey", "TransactionInstruction", "Transaction",
   "PROGRAM", "CONNECTION", "transaction", "WALLET",
   "bookkeeper", "request", "keys", "name", "nameBuffer", "zeroesBuffer",
   "namee", "input", "zeros", "ip", "data", "tx", "sign"]

/-- Standard JavaScript globals a module resolves without importing them. -/
def jsGlobals : List String :=
  ["Buffer", "Array", "Int8Array", "Uint8Array", "console"]

/-- Identifiers referenced by the position sub-expression at line 56,
`Buffer.from(Uint8Array.of(...new BN(5).toArray("le", 8)))`. -/
def positionIdents : List String := ["Buffer", "Uint8Array", "BN"]

/-- An identifier resolves when it is module-bound or a standard global. -/
def resolves (id : String) : Bool :=
  moduleBindings.contains id || jsGlobals.contains id

/-- Evaluation of the position expression under JavaScript scoping rules: a
reference to an identifier that resolves nowhere throws a `ReferenceError`
naming that identifier before any value is produced. -/
def evalPosition : Except String (List Nat) :=
  match positionIdents.filter (fun i => !resolves i) with
  | [] => .ok (bnToArrayLE 5 8)
  | i :: _ => .error i

/-- Evaluation of the whole `data` initializer (lines 44-59): it contains
the position sub-expression, so a `ReferenceError` raised there propagates
and the module aborts before constructing the `TransactionInstruction`. -/
def evalData : Except String (List Nat) := do
  let position ← evalPosition
  pure (int8Bytes 3 ++ int8Bytes 0 ++ int8Bytes 1 ++ namee nameBytes
    ++ int8Bytes 45 ++ position ++ ip inputBytes)

end SendRequest

namespace DeleteClient

/-- The `keys` array of the delete-client script: wallet as signer and
writable, then the bookkeeper and request derived accounts as writable. -/
def keys : List AccountMeta :=
  [⟨.wallet, true, true⟩, ⟨.bookkeeper, false, true⟩,
   ⟨.requestAccount, false, true⟩]

/-- The `data` value of the delete-client script: opcode byte 2 followed by
the clientId byte 0. -/
def data : List Nat := int8Bytes 2 ++ int8Bytes 0

end DeleteClient

namespace CreateClientAccount

/-- The `keys` array of the create-client-account script: wallet as signer
and writable, the bookkeeper and request derived accounts as writable, then
the system program and the rent sysvar read-only. -/
def keys : List AccountMeta :=
  [⟨.wallet, true, true⟩, ⟨.bookkeeper, false, true⟩,
   ⟨.requestAccount, false, true⟩, ⟨.systemProgram, false, false⟩,
   ⟨.rentSysvar, false, false⟩]

/-- The `data` value of the create-client-account script: the single opcode
byte 1. -/
def data : List Nat := int8Bytes 1

end CreateClientAccount

namespace Helper

/-- Instructions as the helper assembles them: either the resource-limit
directive produced by the external `ComputeBudgetProgram.setComputeUnitLimit`,
kept abstract together with its unit argument, or an ordinary program
instruction with the `keys`, `programId` and `data` fields of a web3.js
`TransactionInstruction`. -/
inductive Instr
  | computeUnitLimit (units : Nat)
  | programInstruction (keys : List AccountMeta) (program : Address) (data : List Nat)
deriving DecidableEq

/-- The web3.js `Transaction` object restricted to the fields the helper
touches: the instruction list, the recent blockhash, the fee payer, and
whether `sign` has been called. -/
structure Tx where
  instructions : List Instr
  recentBlockhash : Option Nat
  feePayer : Option Address
  signed : Bool
deriving DecidableEq

/-- Models `new Transaction()`: every field empty. -/
def Tx.new : Tx := ⟨[], none, none, false⟩

/-- Models `Transaction#add`: appends one instruction at the end. -/
def Tx.add (t : Tx) (i : Instr) : Tx :=
  { t with instructions := t.instructions ++ [i] }

/-- Models lines 29-32 of the helper: a fresh transaction to which the
compute-unit-limit instruction with 600000 units is added first and the
caller-supplied operation instruction second. -/
def envelope (tx : Instr) : Tx :=
  (Tx.new.add (Instr.computeUnitLimit 600000)).add tx

/-- Errors a connection call can reject with. -/
inductive NetError
  | staleCheckpoint
  | transport
  | remoteRejection
deriving DecidableEq

/-- Names of the connection calls the helper makes, recorded in traces. -/
inductive NetCall
  | getLatestBlockhash
  | sendRawTransaction
  | confirmTransaction
deriving DecidableEq

/-- The connection collaborator: each call either produces a value or
rejects. Serialization to wire bytes happens inside web3.js and no claim
depends on the byte format, so `sendRawTransaction` receives the signed
transaction itself and returns a numeric signature identifier. -/
structure Network where
  getLatestBlockhash : Except NetError Nat
  sendRawTransaction : Tx → Except NetError Nat
  confirmTransaction : Nat → Except NetError Unit

/-- Models the helper's `transaction` function (lines 28-40): build the
envelope, stamp the latest blockhash, set the fee payer, sign, send the
raw transaction once and confirm it once. Every rejection propagates to
the caller unchanged; the function contains no loop and no second fetch.
The second component records which connection calls ran, in order. -/
def transaction (net : Network) (tx : Instr) (payer : Address) :
    Except NetError Nat × List NetCall :=
  match net.getLatestBlockhash with
  | .error e => (.error e, [.getLatestBlockhash])
  | .ok bh =>
    let ix : Tx :=
      { envelope tx with recentBlockhash := some bh,
                         feePayer := some payer, signed := true }
    match net.sendRawTransaction ix with
    | .error e => (.error e, [.getLatestBlockhash, .sendRawTransaction])
    | .ok sign =>
      match net.confirmTransaction sign with
      | .error e =>
          (.error e, [.getLatestBlockhash, .sendRawTransaction, .confirmTransaction])
      | .ok _ =>
          (.ok sign, [.getLatestBlockhash, .sendRawTransaction, .confirmTransaction])

/-- A connection whose submissions are always rejected with a stale
checkpoint token, used to observe the helper's behavior on expiry. -/
def staleNet : Network :=
  ⟨.ok 7, fun _ => .error .staleCheckpoint, fun _ => .ok ()⟩

end Helper

/-- The operation instruction the send-request script hands to the helper,
used as a concrete instruction in witnesses. -/
def sampleInstruction : Helper.Instr :=
  .programInstruction SendRequest.keys .programId SendRequest.data

/-- Length of the bn.js little-endian encoding is the requested length. -/
theorem bnToArrayLE_length (n len : Nat) : (bnToArrayLE n len).length = len := by
  induction len generalizing n with
  | zero => rfl
  | succ k ih => simp [bnToArrayLE, ih]

/-- The bn.js little-endian encoding decodes back to its value whenever the
value fits in the requested number of bytes. -/
theorem fromArrayLE_bnToArrayLE (len n : Nat) (h : n < 2 ^ (8 * len)) :
    fromArrayLE (bnToArrayLE n len) = n := by
  induction len generalizing n with
  | zero =>
    simp [bnToArrayLE, fromArrayLE]
    omega
  | succ k ih =>
    have hp : (2 : Nat) ^ (8 * (k + 1)) = 2 ^ (8 * k) * 256 := by
      rw [Nat.mul_succ, pow_add]
      norm_num
    have h256 : n / 256 < 2 ^ (8 * k) := by
      apply Nat.div_lt_of_lt_mul
      rw [Nat.mul_comm, ← hp]
      exact h
    simp [bnToArrayLE, fromArrayLE, ih (n / 256) h256]
    omega

set_option maxRecDepth 10000 in
/-- Claim C1 counterexample: a 129-byte name is not rejected; the encoder
still emits a payload in which the oversized name appears verbatim with no
padding, for a total of 653 bytes — no PayloadTooLarge failure occurs. -/
theorem sendRequest_oversized_name_silently_emitted :
    SendRequest.dataOf 0 1 (List.replicate 129 97) 45 5 SendRequest.inputBytes
      = [3, 0, 1] ++ List.replicate 129 97 ++ [45] ++ [5, 0, 0, 0, 0, 0, 0, 0]
        ++ SendRequest.inputBytes ++ List.replicate 507 0
    ∧ (SendRequest.dataOf 0 1 (List.replicate 129 97) 45 5
        SendRequest.inputBytes).length = 653 := by
  constructor <;> rfl

/-- Claim C1 amended: the encoder performs no size validation; with a name
longer than 128 bytes it still emits the payload, the name field is the raw
input with no zero padding, and the total length exceeds 652 bytes, so
oversized inputs are silently emitted oversized (never truncated, never
rejected). -/
theorem sendRequest_oversized_no_failure (clientId requestType fileId position : Nat)
    (name input : List Nat) (hn : 128 < name.length) :
    SendRequest.dataOf clientId requestType name fileId position input
      = int8Bytes 3 ++ int8Bytes clientId ++ int8Bytes requestType ++ name
        ++ int8Bytes fileId ++ bnToArrayLE position 8 ++ SendRequest.ip input
    ∧ 652 < (SendRequest.dataOf clientId requestType name fileId position input).length := by
  have hz : 128 - name.length = 0 := Nat.sub_eq_zero_of_le hn.le
  constructor
  · unfold SendRequest.dataOf SendRequest.namee
    rw [hz]
    simp
  · unfold SendRequest.dataOf SendRequest.namee SendRequest.ip int8Bytes
    simp [bnToArrayLE_length]
    omega

/-- Witness for the amended claim C1 at the concrete 129-byte name. -/
theorem sendRequest_oversized_no_failure_witness :
    128 < (List.replicate 129 97 : List Nat).length
    ∧ 652 < (SendRequest.dataOf 0 1 (List.replicate 129 97) 45 5
        SendRequest.inputBytes).length :=
  ⟨by simp, (sendRequest_oversized_no_failure 0 1 45 5 (List.replicate 129 97)
      SendRequest.inputBytes (by simp)).2⟩

/-- Claim C2: the identifier BN referenced by the position expression at
line 56 of scripts/sendRequest.js is neither bound in the module nor a
standard global, so evaluating the data initializer raises a ReferenceError
and the payload is never produced by this file. -/
theorem sendRequest_bn_unbound :
    SendRequest.resolves "BN" = false
    ∧ SendRequest.evalData = .error "BN" := by
  constructor <;> rfl

set_option maxRecDepth 10000 in
/-- Claim C3: the send-request script's data is exactly 652 bytes laid out
as opcode 3, clientId 0, requestType 1, the 12 name bytes followed by 116
zero bytes, fileId byte 45, position 5 as 8 little-endian bytes, then the 5
data bytes followed by 507 zero bytes. -/
theorem sendRequest_scenario_payload :
    SendRequest.data
      = [3, 0, 1] ++ SendRequest.nameBytes ++ List.replicate 116 0 ++ [45]
        ++ [5, 0, 0, 0, 0, 0, 0, 0] ++ SendRequest.inputBytes ++ List.replicate 507 0
    ∧ SendRequest.data.length = 652 := by
  constructor <;> rfl

/-- Claim C4: each script's account list has exactly the order, count and
signer/writable flags of the specification's table. -/
theorem account_lists_match_spec_table :
    CreateClientAccount.keys = specAccountTable .createClientAccount
    ∧ DeleteClient.keys = specAccountTable .deleteClient
    ∧ SendRequest.keys = specAccountTable .sendRequest :=
  ⟨rfl, rfl, rfl⟩

/-- Claim C5: for a name of at most 128 bytes and an input of at most 512
bytes, the encoded fields are exactly 128 and 512 bytes, each equal to the
input bytes followed by zero bytes on the right. -/
theorem name_data_padding_exact (name input : List Nat)
    (hn : name.length ≤ 128) (hd : input.length ≤ 512) :
    (SendRequest.namee name).length = 128
    ∧ (SendRequest.namee name).take name.length = name
    ∧ (SendRequest.namee name).drop name.length
        = List.replicate (128 - name.length) 0
    ∧ (SendRequest.ip input).length = 512
    ∧ (SendRequest.ip input).take input.length = input
    ∧ (SendRequest.ip input).drop input.length
        = List.replicate (512 - input.length) 0 := by
  unfold SendRequest.namee SendRequest.ip
  refine ⟨?_, List.take_left _ _, List.drop_left _ _, ?_,
    List.take_left _ _, List.drop_left _ _⟩
  · simp
    omega
  · simp
    omega

/-- Witness for claim C5 at the script's concrete name and input. -/
theorem name_data_padding_exact_witness :
    SendRequest.nameBytes.length ≤ 128 ∧ SendRequest.inputBytes.length ≤ 512
    ∧ (SendRequest.namee SendRequest.nameBytes).length = 128
    ∧ (SendRequest.ip SendRequest.inputBytes).length = 512 :=
  ⟨by decide, by decide,
   (name_data_padding_exact SendRequest.nameBytes SendRequest.inputBytes
      (by decide) (by decide)).1,
   (name_data_padding_exact SendRequest.nameBytes SendRequest.inputBytes
      (by decide) (by decide)).2.2.2.1⟩

/-- Claim C6: the payload length is a constant per opcode: the
create-client-account data is the single byte 1, the delete-client data is
the two bytes 2 then 0, and the send-request data is 652 bytes for every
in-bounds name and input. -/
theorem payload_length_fixed_per_opcode (clientId requestType fileId position : Nat)
    (name input : List Nat) (hn : name.length ≤ 128) (hd : input.length ≤ 512) :
    CreateClientAccount.data = [1]
    ∧ DeleteClient.data = [2, 0]
    ∧ (SendRequest.dataOf clientId requestType name fileId position input).length = 652 := by
  refine ⟨rfl, rfl, ?_⟩
  unfold SendRequest.dataOf SendRequest.namee SendRequest.ip int8Bytes
  simp [bnToArrayLE_length]
  omega

/-- Witness for claim C6 at the script's concrete field values. -/
theorem payload_length_fixed_per_opcode_witness :
    SendRequest.nameBytes.length ≤ 128 ∧ SendRequest.inputBytes.length ≤ 512
    ∧ (SendRequest.dataOf 0 1 SendRequest.nameBytes 45 5
        SendRequest.inputBytes).length = 652 :=
  ⟨by decide, by decide,
   (payload_length_fixed_per_opcode 0 1 45 5 SendRequest.nameBytes
      SendRequest.inputBytes (by decide) (by decide)).2.2⟩

/-- Claim C7: the position field is always exactly 8 bytes, unsigned
little-endian (it decodes back to the value for any 64-bit position), and
the encoding of 5 is the byte sequence 05 00 00 00 00 00 00 00. -/
theorem position_encoding_le8 (n : Nat) (h : n < 2 ^ 64) :
    (bnToArrayLE n 8).length = 8
    ∧ fromArrayLE (bnToArrayLE n 8) = n
    ∧ bnToArrayLE 5 8 = [5, 0, 0, 0, 0, 0, 0, 0] :=
  ⟨bnToArrayLE_length n 8, fromArrayLE_bnToArrayLE 8 n (by norm_num at h ⊢; exact h), rfl⟩

/-- Witness for claim C7 at position 5. -/
theorem position_encoding_le8_witness :
    (5 : Nat) < 2 ^ 64 ∧ fromArrayLE (bnToArrayLE 5 8) = 5 :=
  ⟨by norm_num, (position_encoding_le8 5 (by norm_num)).2.1⟩

/-- Claim C8: for every operation instruction, the helper's envelope holds
exactly two instructions, the compute-unit-limit directive first and the
operation instruction second. -/
theorem envelope_two_instructions_ordered (tx : Helper.Instr) :
    (Helper.envelope tx).instructions = [.computeUnitLimit 600000, tx]
    ∧ (Helper.envelope tx).instructions.length = 2 := by
  constructor <;> rfl

/-- Claim C9 counterexample: against a connection that rejects submission
with a stale checkpoint token, the helper returns the error directly: the
blockhash is fetched exactly once and submission is attempted exactly once,
so no re-fetch and no retry ever happens. -/
theorem transaction_no_refetch_on_stale :
    (Helper.transaction Helper.staleNet sampleInstruction .wallet).1
      = .error .staleCheckpoint
    ∧ (Helper.transaction Helper.staleNet sampleInstruction .wallet).2.count
        .getLatestBlockhash = 1
    ∧ (Helper.transaction Helper.staleNet sampleInstruction .wallet).2.count
        .sendRawTransaction = 1 := by
  refine ⟨rfl, ?_, ?_⟩ <;> decide

/-- Claim C9 amended: when submission is rejected because the checkpoint
token expired, the helper propagates the error to its caller; the
checkpoint token is fetched exactly once and assembly and submission are
not re-run (the helper contains no retry loop). -/
theorem transaction_stale_propagates (net : Helper.Network) (tx : Helper.Instr)
    (w : Address) (bh : Nat) (hb : net.getLatestBlockhash = .ok bh)
    (hs : ∀ t, net.sendRawTransaction t = .error .staleCheckpoint) :
    (Helper.transaction net tx w).1 = .error .staleCheckpoint
    ∧ (Helper.transaction net tx w).2
        = [.getLatestBlockhash, .sendRawTransaction] := by
  unfold Helper.transaction
  rw [hb]
  simp [hs]

/-- Witness for the amended claim C9 at the stale connection. -/
theorem transaction_stale_propagates_witness :
    Helper.staleNet.getLatestBlockhash = .ok 7
    ∧ (Helper.transaction Helper.staleNet sampleInstruction .wallet).1
        = .error .staleCheckpoint :=
  ⟨rfl, (transaction_stale_propagates Helper.staleNet sampleInstruction .wallet 7
      rfl (fun _ => rfl)).1⟩

end Bitoku
